import Mathlib

/-!
Verification development for the GMS demo driver (`GmsDemo.cpp`).

The program loads two images, extracts ORB keypoints/descriptors, computes
brute-force Hamming candidate matches, filters them with three GMS
configurations and displays the results.  External collaborators (image
decoder, ORB extractor, GMS filter, match renderer) are modelled as
deterministic function parameters; the window toolkit and the standard
streams are modelled as an event trace emitted by the driver.
-/

namespace GmsDemo

/-- An OpenCV `Mat` as used by the demo: a raster with a row count, a column
count and a flag recording whether pixel storage is allocated
(`data != nullptr`). -/
structure Image where
  rows : Nat
  cols : Nat
  hasData : Bool
deriving Repr, DecidableEq

/-- `cv::Size` as returned by `Mat::size()`: width = cols, height = rows. -/
structure MatSize where
  width : Nat
  height : Nat
deriving Repr, DecidableEq

/-- `Mat::size()`: returns `Size(cols, rows)`. -/
def Image.size (m : Image) : MatSize := ⟨m.cols, m.rows⟩

/-- `Mat::empty()`: true iff there is no pixel storage or the total number of
pixels is zero. -/
def Image.empty (m : Image) : Bool := !m.hasData || (m.rows * m.cols == 0)

/-- `isValidImage` (GmsDemo.cpp:169): returns `!image.empty()`. -/
def isValidImage (image : Image) : Bool := !image.empty

/-- A `cv::KeyPoint`: position, size, angle and response.  The demo never
computes on these fields; they flow opaquely through the pipeline. -/
structure KeyPoint where
  x : Int
  y : Int
  size : Int
  angle : Int
  response : Int
deriving Repr, DecidableEq

/-- A binary descriptor row: the bit string of one descriptor. -/
abbrev Descriptor := List Bool

/-- A `cv::DMatch`: query index, train index and distance. -/
structure DMatch where
  queryIdx : Nat
  trainIdx : Nat
  distance : Nat
deriving Repr, DecidableEq

/-- Bitwise Hamming distance between two descriptor rows (`NORM_HAMMING`):
the number of positions where the bits disagree. -/
def hammingDist (a b : Descriptor) : Nat :=
  (List.zipWith (fun x y => if x = y then (0 : Nat) else 1) a b).sum

/-- Model of the inner loop of OpenCV `BFMatcher::match` for one query row:
the train row of minimal Hamming distance, ties broken by the smaller train
index.  Returns `none` exactly when the train set is empty.  `i` is the index
of the first row of `T`. -/
def bestTrainAux (q : Descriptor) : List Descriptor → Nat → Option (Nat × Nat)
  | [], _ => none
  | t :: ts, i =>
    match bestTrainAux q ts (i + 1) with
    | none => some (i, hammingDist q t)
    | some (j, e) =>
      if hammingDist q t ≤ e then some (i, hammingDist q t) else some (j, e)

/-- Best train row for a query row, searching from index 0. -/
def bestTrain (q : Descriptor) (T : List Descriptor) : Option (Nat × Nat) :=
  bestTrainAux q T 0

/-- One `DMatch` per query row starting at query index `i`; a query row
yields no match only when the train set is empty (OpenCV clears the output
when either descriptor set is empty). -/
def matchFrom (T : List Descriptor) : List Descriptor → Nat → List DMatch
  | [], _ => []
  | q :: qs, i =>
    match bestTrain q T with
    | none => matchFrom T qs (i + 1)
    | some (j, d) => ⟨i, j, d⟩ :: matchFrom T qs (i + 1)

/-- `computeMatches` (GmsDemo.cpp:225): brute-force matcher with
`NORM_HAMMING` and cross-check disabled, as `matcher->match` behaves:
for each query descriptor the closest train descriptor, no output entry when
the train set is empty. -/
def computeMatches (descriptor1 descriptor2 : List Descriptor) : List DMatch :=
  matchFrom descriptor2 descriptor1 0

/-- The feature budget (GmsDemo.cpp:42): `const int MAX_FEATURES = 10000`. -/
def MAX_FEATURES : Nat := 10000

namespace DETECTOR_TYPE

/-- The single enumerator of `enum DETECTOR_TYPE`; a C++ enum value is an
integer, so the tag type is modelled as `Nat` with `ORB = 0`. -/
def ORB : Nat := 0

end DETECTOR_TYPE

/-- A configured `Feature2D` extractor; `ORB::create(MAX_FEATURES)` is a
detector carrying its feature budget. -/
structure Feature2D where
  maxFeatures : Nat
deriving Repr, DecidableEq

/-- `createDetector` (GmsDemo.cpp:207): `switch` on the detector tag; the
`ORB` tag yields `ORB::create(MAX_FEATURES)`, every other value hits the
`default` branch and yields `nullptr`. -/
def createDetector (detectorType : Nat) : Option Feature2D :=
  if detectorType = DETECTOR_TYPE.ORB then some ⟨MAX_FEATURES⟩ else none

namespace Window

/-- `GMS_NO_RS_MATCHES_WINDOW_NAME` (GmsDemo.cpp:45). -/
def GMS_NO_RS : String := "GMS No Rotation or Scale Support"

/-- `GMS_RS_MATCHES_WINDOW_NAME` (GmsDemo.cpp:46). -/
def GMS_RS : String := "GMS with Rotation and Scale Support"

/-- `GMS_NRS_MATCHES_WINDOW_NAME` (GmsDemo.cpp:47). -/
def GMS_NRS : String := "GMS with Scale Support and No Rotation"

end Window

/-- The diagnostic written on an invalid input image (GmsDemo.cpp:122),
one line (the trailing line terminator is implicit in the line event). -/
def loadErrMsg : String :=
  "Unable to load images. Please check that dog01.jpg and dog02.jpg images exist in the same folder as the executable."

/-- The diagnostic written on a detect-and-compute failure (GmsDemo.cpp:139). -/
def detectErrMsg : String :=
  "Invalid detector type provided. Unable to detect and compute keypoints and descriptors with selected detector type."

/-- Observable actions of one program run: window-toolkit calls, stream
lines, and calls into the external collaborators. -/
inductive Event where
  | namedWindow (name : String)
  | resizeWindow (name : String) (w h : Nat)
  | imshow (name : String)
  | stdoutLine (s : String)
  | stderrLine (s : String)
  | orbDetect (kpCount : Nat)
  | computeMatchesCall (result : List DMatch)
  | matchGMSCall (size1 size2 : MatSize) (cand : List DMatch)
      (rotation scale : Bool)
  | drawMatchesCall
  | waitKey
  | destroyAllWindows
deriving Repr, DecidableEq

/-- The external collaborators of the driver, each a deterministic function:
the image decoder `imread`, the ORB extractor (budget and image to keypoints
and descriptors), the GMS filter `matchGMS` and the renderer `drawMatches`. -/
structure Ext where
  imread : String → Image
  orb : Nat → Image → List KeyPoint × List Descriptor
  matchGMS : MatSize → MatSize → List KeyPoint → List KeyPoint →
    List DMatch → Bool → Bool → List DMatch
  drawMatches : Image → List KeyPoint → Image → List KeyPoint →
    List DMatch → Image

/-- `displayMatches` (GmsDemo.cpp:266): create a resizable named window,
size it to the image extents (cols then rows), show the image. -/
def displayMatches (imageMatches : Image) (windowName : String) : List Event :=
  [Event.namedWindow windowName,
   Event.resizeWindow windowName imageMatches.cols imageMatches.rows,
   Event.imshow windowName]

/-- Result of `detectAndCompute`: the events it emits, its boolean return,
and the final values of the two output parameters. -/
structure DetectOut where
  events : List Event
  ok : Bool
  keyPoints : List KeyPoint
  descriptors : List Descriptor
deriving Repr

/-- `detectAndCompute` (GmsDemo.cpp:183): build a detector via
`createDetector`; on `nullptr` return `false` leaving the output parameters
untouched; otherwise print the progress line and run the extractor. -/
def detectAndCompute (ext : Ext) (detectorType : Nat) (image : Image)
    (keyPoints : List KeyPoint) (descriptors : List Descriptor) : DetectOut :=
  match createDetector detectorType with
  | none => ⟨[], false, keyPoints, descriptors⟩
  | some detector =>
    let out := ext.orb detector.maxFeatures image
    ⟨[Event.stdoutLine "Detecting keypoints for input image",
      Event.orbDetect out.1.length], true, out.1, out.2⟩

/-- `gmsCreateDisplayMatches` (GmsDemo.cpp:242): run
`xfeatures2d::matchGMS(image1.size(), image1.size(), kp1, kp2, matchesAll,
matchesGMS, rotation, scale)` — the source passes `image1.size()` as both
size arguments — print the filtered size, draw the matches, display them and
wait for a key press. -/
def gmsCreateDisplayMatches (ext : Ext) (image1 image2 : Image)
    (kp1 kp2 : List KeyPoint) (matchesAll : List DMatch)
    (windowName : String) (rotation scale : Bool) : List Event :=
  let matchesGMS :=
    ext.matchGMS image1.size image1.size kp1 kp2 matchesAll rotation scale
  let imageMatches := ext.drawMatches image1 kp1 image2 kp2 matchesGMS
  Event.matchGMSCall image1.size image1.size matchesAll rotation scale ::
  Event.stdoutLine ("MatchGMS Size: " ++ toString matchesGMS.length) ::
  Event.drawMatchesCall ::
  displayMatches imageMatches windowName ++ [Event.waitKey]

/-- Result of a run of `main`: the emitted event trace and the exit code. -/
structure RunResult where
  trace : List Event
  exitCode : Nat
deriving Repr

/-- `main` (GmsDemo.cpp:108): load both images, display them, validate,
extract features, compute candidate matches once, run the three GMS
configurations, destroy all windows, exit 0; on a fatal error emit one
diagnostic line and exit 1 (`EXIT_FAILURE`). -/
def mainRun (ext : Ext) : RunResult :=
  let dog01 := ext.imread "dog01.jpg"
  let dog02 := ext.imread "dog02.jpg"
  let t0 := displayMatches dog01 "Dog01 Image" ++
            displayMatches dog02 "Dog02 Image"
  if !isValidImage dog01 || !isValidImage dog02 then
    ⟨t0 ++ [Event.stderrLine loadErrMsg], 1⟩
  else
    let r1 := detectAndCompute ext DETECTOR_TYPE.ORB dog01 [] []
    let r2 := detectAndCompute ext DETECTOR_TYPE.ORB dog02 [] []
    if !r1.ok || !r2.ok then
      ⟨t0 ++ r1.events ++ r2.events ++ [Event.stderrLine detectErrMsg], 1⟩
    else
      let matchesAll := computeMatches r1.descriptors r2.descriptors
      let g1 := gmsCreateDisplayMatches ext dog01 dog02 r1.keyPoints
        r2.keyPoints matchesAll Window.GMS_NO_RS false false
      let g2 := gmsCreateDisplayMatches ext dog01 dog02 r1.keyPoints
        r2.keyPoints matchesAll Window.GMS_RS true true
      let g3 := gmsCreateDisplayMatches ext dog01 dog02 r1.keyPoints
        r2.keyPoints matchesAll Window.GMS_NRS false true
      ⟨t0 ++ r1.events ++ r2.events ++
        [Event.computeMatchesCall matchesAll] ++ g1 ++ g2 ++ g3 ++
        [Event.destroyAllWindows], 0⟩

/- Observables over a trace. -/

/-- The lines written to the standard error stream, in order. -/
def stderrLines : List Event → List String
  | [] => []
  | Event.stderrLine s :: es => s :: stderrLines es
  | _ :: es => stderrLines es

/-- The lines written to the standard output stream, in order. -/
def stdoutLines : List Event → List String
  | [] => []
  | Event.stdoutLine s :: es => s :: stdoutLines es
  | _ :: es => stdoutLines es

/-- The window registry after a list of events, starting from `ws`:
`namedWindow` registers a name once, `destroyAllWindows` empties the
registry. -/
def windowsAfterFrom (ws : List String) : List Event → List String
  | [] => ws
  | Event.namedWindow n :: es =>
    windowsAfterFrom (if ws.contains n then ws else ws ++ [n]) es
  | Event.destroyAllWindows :: es => windowsAfterFrom [] es
  | _ :: es => windowsAfterFrom ws es

/-- The windows still open at the end of a trace. -/
def windowsAfter (es : List Event) : List String := windowsAfterFrom [] es

/-- How many events of a trace satisfy `p`. -/
def countEv (p : Event → Bool) : List Event → Nat
  | [] => 0
  | e :: es => (if p e then 1 else 0) + countEv p es

/-- Recognises an extractor invocation. -/
def isOrbDetect : Event → Bool
  | Event.orbDetect _ => true
  | _ => false

/-- Recognises a brute-force matching step. -/
def isComputeMatchesCall : Event → Bool
  | Event.computeMatchesCall _ => true
  | _ => false

/-- Recognises a GMS filter invocation. -/
def isMatchGMSCall : Event → Bool
  | Event.matchGMSCall _ _ _ _ _ => true
  | _ => false

/-- The argument records of the GMS invocations of a trace, in order:
candidate list, rotation flag, scale flag. -/
def gmsArgs : List Event → List (List DMatch × Bool × Bool)
  | [] => []
  | Event.matchGMSCall _ _ cand r s :: es => (cand, r, s) :: gmsArgs es
  | _ :: es => gmsArgs es

/-- The size arguments of the GMS invocations of a trace, in order. -/
def gmsSizeArgs : List Event → List (MatSize × MatSize)
  | [] => []
  | Event.matchGMSCall s1 s2 _ _ _ :: es => (s1, s2) :: gmsSizeArgs es
  | _ :: es => gmsSizeArgs es

/-- Skeleton tags for the temporal ordering of a run. -/
inductive EvKind where
  | gms
  | wait
  | destroy
deriving Repr, DecidableEq

/-- The GMS / key-wait / window-destruction skeleton of a trace. -/
def keyTrace : List Event → List EvKind
  | [] => []
  | Event.matchGMSCall _ _ _ _ _ :: es => EvKind.gms :: keyTrace es
  | Event.waitKey :: es => EvKind.wait :: keyTrace es
  | Event.destroyAllWindows :: es => EvKind.destroy :: keyTrace es
  | _ :: es => keyTrace es

/-- The keypoint counts reported by the extractor invocations of a trace. -/
def kpCounts : List Event → List Nat
  | [] => []
  | Event.orbDetect n :: es => n :: kpCounts es
  | _ :: es => kpCounts es

/-- The candidate-list sizes of the brute-force matching steps of a trace. -/
def candCounts : List Event → List Nat
  | [] => []
  | Event.computeMatchesCall r :: es => r.length :: candCounts es
  | _ :: es => candCounts es

/-- `leadsWith pat s`: the character list `pat` is a leading segment of `s`. -/
def leadsWith : List Char → List Char → Bool
  | [], _ => true
  | _ :: _, [] => false
  | p :: ps, c :: cs => p == c && leadsWith ps cs

/-- `occursIn pat s`: `pat` occurs as a contiguous segment of `s`. -/
def occursIn (pat : List Char) : List Char → Bool
  | [] => pat == []
  | c :: cs => leadsWith pat (c :: cs) || occursIn pat cs

/-- `mentions s pat`: the string `pat` occurs as a substring of `s`. -/
def mentions (s pat : String) : Bool := occursIn pat.data s.data

/- Concrete collaborator instances used to exercise the model. -/

/-- A deterministic collaborator assignment on which the whole pipeline
succeeds: both images decode as valid rasters of different sizes. -/
def testExt : Ext where
  imread := fun path =>
    if path = "dog01.jpg" then ⟨3, 2, true⟩ else ⟨5, 4, true⟩
  orb := fun _ _ => ([⟨0, 0, 1, 0, 1⟩, ⟨1, 1, 1, 0, 1⟩],
    [[true, false], [false, false]])
  matchGMS := fun _ _ _ _ cand _ _ => cand
  drawMatches := fun i1 _ i2 _ _ =>
    ⟨max i1.rows i2.rows, i1.cols + i2.cols, true⟩

/-- A collaborator assignment whose decoder fails on every path: every load
yields an empty image, so the run takes the fatal invalid-image branch. -/
def badExt : Ext :=
  { testExt with imread := fun _ => ⟨0, 0, false⟩ }

end GmsDemo

namespace GmsDemo

/- Basic lemmas about the brute-force matcher model. -/

theorem bestTrainAux_isSome (q : Descriptor) (T : List Descriptor) (i : Nat)
    (h : T ≠ []) : (bestTrainAux q T i).isSome := by
  cases T with
  | nil => exact absurd rfl h
  | cons t ts =>
    simp only [bestTrainAux]
    cases bestTrainAux q ts (i + 1) with
    | none => simp
    | some p =>
      obtain ⟨j, e⟩ := p
      by_cases hle : hammingDist q t ≤ e <;> simp [hle]

theorem bestTrainAux_bound (q : Descriptor) (T : List Descriptor) (i : Nat)
    (j e : Nat) (h : bestTrainAux q T i = some (j, e)) :
    i ≤ j ∧ j < i + T.length := by
  induction T generalizing i j e with
  | nil => simp [bestTrainAux] at h
  | cons t ts ih =>
    simp only [bestTrainAux] at h
    cases hrec : bestTrainAux q ts (i + 1) with
    | none =>
      rw [hrec] at h
      have hij : i = j := congrArg Prod.fst (Option.some.inj h)
      subst hij
      simp only [List.length_cons]
      omega
    | some p =>
      obtain ⟨j', e'⟩ := p
      rw [hrec] at h
      have hb := ih (i + 1) j' e' hrec
      by_cases hle : hammingDist q t ≤ e'
      · simp only [hle, if_true, Option.some.injEq, Prod.mk.injEq] at h
        simp only [List.length_cons]
        omega
      · simp only [hle, if_false, Option.some.injEq, Prod.mk.injEq] at h
        simp only [List.length_cons]
        omega

theorem matchFrom_length (T Q : List Descriptor) (i : Nat) (h : T ≠ []) :
    (matchFrom T Q i).length = Q.length := by
  induction Q generalizing i with
  | nil => simp [matchFrom]
  | cons q qs ih =>
    have hsome := bestTrainAux_isSome q T 0 h
    simp only [matchFrom, bestTrain]
    cases hb : bestTrainAux q T 0 with
    | none => rw [hb] at hsome; simp at hsome
    | some p =>
      obtain ⟨j, d⟩ := p
      simp [ih]

theorem matchFrom_bounds (T Q : List Descriptor) (i : Nat) (m : DMatch)
    (hm : m ∈ matchFrom T Q i) :
    i ≤ m.queryIdx ∧ m.queryIdx < i + Q.length ∧ m.trainIdx < T.length := by
  induction Q generalizing i with
  | nil => simp [matchFrom] at hm
  | cons q qs ih =>
    simp only [matchFrom, bestTrain] at hm
    cases hb : bestTrainAux q T 0 with
    | none =>
      rw [hb] at hm
      have := ih (i + 1) hm
      simp only [List.length_cons]
      omega
    | some p =>
      obtain ⟨j, d⟩ := p
      rw [hb] at hm
      rcases List.mem_cons.mp hm with hhead | htail
      · have hj := bestTrainAux_bound q T 0 j d hb
        subst hhead
        simp only [List.length_cons]
        omega
      · have := ih (i + 1) htail
        simp only [List.length_cons]
        omega

/-- The candidate list a successful run computes: brute-force matches over
the descriptors the extractor yields for the two loaded images. -/
def candidatesOf (ext : Ext) : List DMatch :=
  computeMatches
    (ext.orb MAX_FEATURES (ext.imread "dog01.jpg")).2
    (ext.orb MAX_FEATURES (ext.imread "dog02.jpg")).2

/-- Claim C4: `isValidImage` returns true if and only if the image has
non-zero dimensions and allocated pixel storage. -/
theorem c4_isValidImage_iff (image : Image) :
    isValidImage image = true ↔
      0 < image.rows ∧ 0 < image.cols ∧ image.hasData = true := by
  obtain ⟨r, c, d⟩ := image
  cases d <;> simp [isValidImage, Image.empty]
  omega

/-- Claim C6: the detector factory maps the `ORB` tag to an extractor
configured with the feature budget `MAX_FEATURES = 10000` and maps every
other tag value to null. -/
theorem c6_createDetector_spec :
    createDetector DETECTOR_TYPE.ORB = some ⟨MAX_FEATURES⟩ ∧
    MAX_FEATURES = 10000 ∧
    ∀ t : Nat, t ≠ DETECTOR_TYPE.ORB → createDetector t = none := by
  refine ⟨rfl, rfl, fun t ht => ?_⟩
  simp [createDetector, ht]

/-- Witness for C6: the factory at the `ORB` tag and at the unknown tag 1. -/
theorem c6_createDetector_spec_witness :
    createDetector DETECTOR_TYPE.ORB = some ⟨MAX_FEATURES⟩ ∧
      createDetector 1 = none :=
  ⟨c6_createDetector_spec.1, c6_createDetector_spec.2.2 1 (by decide)⟩

/-- Claim C7: when the factory returns null, `detectAndCompute` returns
`false`, leaves its initially-empty output parameters empty, emits no
events, and never invokes the extractor. -/
theorem c7_detectAndCompute_null (ext : Ext) (t : Nat) (image : Image)
    (h : createDetector t = none) :
    detectAndCompute ext t image [] [] = ⟨[], false, [], []⟩ ∧
    countEv isOrbDetect (detectAndCompute ext t image [] []).events = 0 := by
  unfold detectAndCompute
  rw [h]
  exact ⟨rfl, rfl⟩

/-- Witness for C7: the unknown detector tag 1 on a concrete image. -/
theorem c7_detectAndCompute_null_witness :
    detectAndCompute testExt 1 ⟨3, 2, true⟩ [] [] = ⟨[], false, [], []⟩ ∧
    countEv isOrbDetect
      (detectAndCompute testExt 1 ⟨3, 2, true⟩ [] []).events = 0 :=
  c7_detectAndCompute_null testExt 1 ⟨3, 2, true⟩ (by decide)

/-- Claim C1 (code bug): on two valid input images of different sizes the
GMS wrapper passes `image1.size()` as BOTH size arguments, so the second
size argument is not image2's size as the specification requires. -/
theorem c1_gms_size_argument_bug :
    gmsSizeArgs (gmsCreateDisplayMatches testExt ⟨3, 2, true⟩ ⟨5, 4, true⟩
        [] [] [] Window.GMS_NO_RS false false) =
      [(Image.size ⟨3, 2, true⟩, Image.size ⟨3, 2, true⟩)] ∧
    Image.size (⟨3, 2, true⟩ : Image) ≠ Image.size (⟨5, 4, true⟩ : Image) := by
  decide

/-- Counterexample for C3 as stated: with a non-empty query set and an empty
train set the matcher returns no entries, so the output length differs from
the query descriptor count. -/
theorem c3_empty_train_counterexample :
    ¬ ((computeMatches [[true]] []).length =
        ([[true]] : List Descriptor).length) := by
  decide

/-- Claim C3 (amended): provided the train descriptor set is non-empty, the
brute-force matcher returns exactly one entry per query row and every
entry's indices are in range. -/
theorem c3_match_shape (Q T : List Descriptor) (h : T ≠ []) :
    (computeMatches Q T).length = Q.length ∧
    ∀ m ∈ computeMatches Q T,
      m.queryIdx < Q.length ∧ m.trainIdx < T.length := by
  constructor
  · exact matchFrom_length T Q 0 h
  · intro m hm
    have hb := matchFrom_bounds T Q 0 m hm
    omega

/-- Witness for C3: a two-row query set against a one-row train set. -/
theorem c3_match_shape_witness :
    (computeMatches [[true, false], [false, false]] [[false, false]]).length
      = 2 ∧
    ∀ m ∈ computeMatches [[true, false], [false, false]] [[false, false]],
      m.queryIdx < 2 ∧ m.trainIdx < 1 := by
  have h := c3_match_shape [[true, false], [false, false]] [[false, false]]
    (by decide)
  simpa using h

/-- Claim C9: two runs of the pipeline over byte-identical inputs — the
collaborators being deterministic functions, identical input bytes mean the
same collaborator assignment — produce identical keypoint counts, candidate
match counts, printed output lines and exit codes. -/
theorem c9_determinism (ext1 ext2 : Ext) (h : ext1 = ext2) :
    kpCounts (mainRun ext1).trace = kpCounts (mainRun ext2).trace ∧
    candCounts (mainRun ext1).trace = candCounts (mainRun ext2).trace ∧
    stdoutLines (mainRun ext1).trace = stdoutLines (mainRun ext2).trace ∧
    (mainRun ext1).exitCode = (mainRun ext2).exitCode := by
  subst h
  exact ⟨rfl, rfl, rfl, rfl⟩

/-- In the success branch both detect-and-compute calls report `ok`. -/
theorem detectAndCompute_orb_ok (ext : Ext) (image : Image)
    (kp : List KeyPoint) (d : List Descriptor) :
    (detectAndCompute ext DETECTOR_TYPE.ORB image kp d).ok = true := rfl

/-- Claim C5: whenever either loaded image is invalid, the run writes the
one-line diagnostic — which names both `dog01.jpg` and `dog02.jpg` — to the
standard error stream, exits with a failure status, and performs no feature
extraction, brute-force matching, or GMS filtering. -/
theorem c5_invalid_image_diagnostic (ext : Ext)
    (h : isValidImage (ext.imread "dog01.jpg") = false ∨
         isValidImage (ext.imread "dog02.jpg") = false) :
    stderrLines (mainRun ext).trace = [loadErrMsg] ∧
    mentions loadErrMsg "dog01.jpg" = true ∧
    mentions loadErrMsg "dog02.jpg" = true ∧
    (mainRun ext).exitCode ≠ 0 ∧
    countEv isOrbDetect (mainRun ext).trace = 0 ∧
    countEv isComputeMatchesCall (mainRun ext).trace = 0 ∧
    countEv isMatchGMSCall (mainRun ext).trace = 0 := by
  have hc : (!isValidImage (ext.imread "dog01.jpg") ||
             !isValidImage (ext.imread "dog02.jpg")) = true := by
    rcases h with h | h <;> simp [h]
  refine ⟨?_, by decide, by decide, ?_, ?_, ?_, ?_⟩ <;>
    simp [mainRun, hc, displayMatches, stderrLines, countEv, isOrbDetect,
      isComputeMatchesCall, isMatchGMSCall]

/-- Witness for C5: the collaborators whose decoder always fails. -/
theorem c5_invalid_image_diagnostic_witness :
    stderrLines (mainRun badExt).trace = [loadErrMsg] ∧
    mentions loadErrMsg "dog01.jpg" = true ∧
    mentions loadErrMsg "dog02.jpg" = true ∧
    (mainRun badExt).exitCode ≠ 0 ∧
    countEv isOrbDetect (mainRun badExt).trace = 0 ∧
    countEv isComputeMatchesCall (mainRun badExt).trace = 0 ∧
    countEv isMatchGMSCall (mainRun badExt).trace = 0 :=
  c5_invalid_image_diagnostic badExt (Or.inl (by decide))

/-- Counterexample for C2 as stated: a run that terminates with the fatal
invalid-image error leaves the two source-image windows open — the error
path returns without destroying any window. -/
theorem c2_windows_left_open_counterexample :
    (mainRun badExt).exitCode ≠ 0 ∧
    windowsAfter (mainRun badExt).trace ≠ [] := by
  decide

/-- Claim C2 (amended): every run that terminates with a fatal error emits
exactly one diagnostic line and exits with a non-zero status, but leaves the
two source-image windows (opened before validation) open at exit. -/
theorem c2_fatal_error_behaviour (ext : Ext)
    (h : (mainRun ext).exitCode ≠ 0) :
    stderrLines (mainRun ext).trace = [loadErrMsg] ∧
    windowsAfter (mainRun ext).trace = ["Dog01 Image", "Dog02 Image"] := by
  by_cases hc : (!isValidImage (ext.imread "dog01.jpg") ||
                 !isValidImage (ext.imread "dog02.jpg")) = true
  · constructor <;>
      simp [mainRun, hc, displayMatches, stderrLines, windowsAfter,
        windowsAfterFrom]
  · exfalso
    apply h
    simp [mainRun, hc, detectAndCompute_orb_ok]

/-- Witness for C2: the collaborators whose decoder always fails. -/
theorem c2_fatal_error_behaviour_witness :
    stderrLines (mainRun badExt).trace = [loadErrMsg] ∧
    windowsAfter (mainRun badExt).trace = ["Dog01 Image", "Dog02 Image"] :=
  c2_fatal_error_behaviour badExt (by decide)

/-- Claim C8: in every successful run the candidate match list is computed
exactly once and all three GMS invocations receive that one list, with the
configurations applied in the order (false, false), (true, true),
(false, true). -/
theorem c8_candidates_once_three_configs (ext : Ext)
    (h1 : isValidImage (ext.imread "dog01.jpg") = true)
    (h2 : isValidImage (ext.imread "dog02.jpg") = true) :
    countEv isComputeMatchesCall (mainRun ext).trace = 1 ∧
    gmsArgs (mainRun ext).trace =
      [(candidatesOf ext, false, false),
       (candidatesOf ext, true, true),
       (candidatesOf ext, false, true)] := by
  constructor <;>
    simp [mainRun, h1, h2, detectAndCompute, createDetector,
      DETECTOR_TYPE.ORB, gmsCreateDisplayMatches, displayMatches,
      candidatesOf, countEv, gmsArgs, isComputeMatchesCall, MAX_FEATURES]

/-- Witness for C8: the successful run over the test collaborators. -/
theorem c8_candidates_once_three_configs_witness :
    countEv isComputeMatchesCall (mainRun testExt).trace = 1 ∧
    gmsArgs (mainRun testExt).trace =
      [(candidatesOf testExt, false, false),
       (candidatesOf testExt, true, true),
       (candidatesOf testExt, false, true)] :=
  c8_candidates_once_three_configs testExt (by decide) (by decide)

/-- Claim C10: in every successful run the GMS / key-wait / destruction
skeleton of the trace is three (filter, wait) pairs followed by the single
window destruction: the driver blocks on a key press after every
configuration, the third included, before any window is closed. -/
theorem c10_wait_after_each_config (ext : Ext)
    (h1 : isValidImage (ext.imread "dog01.jpg") = true)
    (h2 : isValidImage (ext.imread "dog02.jpg") = true) :
    keyTrace (mainRun ext).trace =
      [EvKind.gms, EvKind.wait, EvKind.gms, EvKind.wait, EvKind.gms,
       EvKind.wait, EvKind.destroy] := by
  simp [mainRun, h1, h2, detectAndCompute, createDetector,
    DETECTOR_TYPE.ORB, gmsCreateDisplayMatches, displayMatches, keyTrace]

/-- Witness for C10: the successful run over the test collaborators. -/
theorem c10_wait_after_each_config_witness :
    keyTrace (mainRun testExt).trace =
      [EvKind.gms, EvKind.wait, EvKind.gms, EvKind.wait, EvKind.gms,
       EvKind.wait, EvKind.destroy] :=
  c10_wait_after_each_config testExt (by decide) (by decide)

/-- Witness for C9: two runs over the concrete test collaborators. -/
theorem c9_determinism_witness :
    kpCounts (mainRun testExt).trace = kpCounts (mainRun testExt).trace ∧
    candCounts (mainRun testExt).trace = candCounts (mainRun testExt).trace ∧
    stdoutLines (mainRun testExt).trace =
      stdoutLines (mainRun testExt).trace ∧
    (mainRun testExt).exitCode = (mainRun testExt).exitCode :=
  c9_determinism testExt testExt rfl

end GmsDemo
